import Mathlib

/-!
Shallow embedding of
`azurerm/internal/services/logic/logic_app_trigger_recurrence_resource.go`
from the `terraform-provider-azurerm` repository.

The Go file maps a Terraform configuration block for a Logic App recurrence
trigger to an untyped JSON-like document (`expand`, part of the create/update
handler) and back (`flatten`, part of the read handler).

Modelling conventions:
  * Terraform's zero-value/`GetOk` semantics for optional scalar fields are
    modelled with `""` meaning "unset" (`d.GetOk` on a `TypeString` field
    returns `ok = false` exactly when the stored string is empty, and on a
    `TypeList` field exactly when the list is empty).
  * The generic `map[string]interface{}` documents exchanged with the remote
    API have a fixed shape here; `Option` on a field means the corresponding
    key is absent (or `nil`) in the Go map.  The `recurrence` value itself may
    be any JSON value in Go, so it is modelled by `TrigVal` with an `obj`
    constructor (a JSON object, the only shape the type assertion
    `v.(map[string]interface{})` accepts) and a `prim` constructor standing
    for every non-object JSON value.
  * JSON numbers arrive in Go as `float64` and the read handler coerces them
    with `int(interval.(float64))`; all documents the claims quantify over
    carry integral intervals, so the document field is modelled as `Int` and
    that coercion as the identity.
  * Set-typed configuration attributes (`schema.TypeSet`) are modelled by the
    list `(*schema.Set).List()` produces; round-trip equality is stated on
    those lists.
-/

/-- A `schedule` block as stored in Terraform state: the three `TypeSet`
attributes of the nested resource (lines 69-112 of the Go file).  In state
every attribute is present, an unset set being the empty set. -/
structure ScheduleAttrs where
  at_these_hours : List Int
  at_these_minutes : List Int
  on_these_days : List String
  deriving DecidableEq, Repr

/-- The configuration fields of the recurrence trigger that take part in the
expand/flatten mapping (schema lines 44-119): `frequency`, `interval`,
`start_time`, `time_zone` and the `schedule` list.  `""` encodes an unset
optional string; `schedule` is a `TypeList` with `MaxItems: 1` whose single
element may be `nil` in Go (`input[0] == nil` in the expander), hence
`Option ScheduleAttrs` elements. -/
structure TriggerConfig where
  frequency : String
  interval : Int
  start_time : String
  time_zone : String
  schedule : List (Option ScheduleAttrs)
  deriving DecidableEq, Repr

/-- The `schedule` object of the remote recurrence document: keys `hours`,
`minutes`, `weekDays`, each absent (`none`) or bound to a list. -/
structure ScheduleDoc where
  hours : Option (List Int)
  minutes : Option (List Int)
  weekDays : Option (List String)
  deriving DecidableEq, Repr

/-- The `recurrence` object of the remote trigger document.  Every key may be
absent: the read handler checks each of `frequency`, `interval`, `startTime`,
`timeZone`, `schedule` for `nil` before using it (lines 191-209). -/
structure RecurrenceDoc where
  frequency : Option String
  interval : Option Int
  startTime : Option String
  timeZone : Option String
  schedule : Option ScheduleDoc
  deriving DecidableEq, Repr

/-- The value stored under the `recurrence` key of a fetched trigger document:
either a JSON object (the only case the Go type assertion
`v.(map[string]interface{})` accepts, line 186) or some non-object JSON value,
represented by its printed form. -/
inductive TrigVal where
  | obj : RecurrenceDoc → TrigVal
  | prim : String → TrigVal
  deriving DecidableEq, Repr

/-- A remote trigger document: the `type` key (field `typ`) and the
`recurrence` key, each possibly absent. -/
structure TriggerDoc where
  typ : Option String
  recurrence : Option TrigVal
  deriving DecidableEq, Repr

/-- Models `validation.StringInSlice` of the terraform-plugin-sdk (an external
dependency of the Go file): the produced validator accepts a string exactly
when it equals some element of `valid`, comparing case-insensitively when
`ignoreCase` is set. -/
def stringInSlice (valid : List String) (ignoreCase : Bool) (s : String) : Bool :=
  valid.any (fun v => if ignoreCase then v.toLower == s.toLower else v == s)

/-- The literal slice passed to `validation.StringInSlice` for the `frequency`
attribute (lines 47-55), duplicate `"Hour"` entry included. -/
def frequencyValues : List String :=
  ["Month", "Week", "Day", "Hour", "Minute", "Hour", "Second"]

/-- The `interval` attribute is declared `Type: schema.TypeInt, Required: true`
with no `ValidateFunc` (lines 58-61), so schema validation accepts every
integer supplied for it. -/
def intervalValidateOk (_ : Int) : Bool :=
  true

/-- The time-zone whitelist of `validateLogicAppTriggerRecurrenceTimeZone`
(lines 232-331). -/
def recurrenceTimeZones : List String :=
  ["Dateline Standard Time", "Samoa Standard Time", "Hawaiian Standard Time",
   "Alaskan Standard Time", "Pacific Standard Time", "Mountain Standard Time",
   "Mexico Standard Time", "US Mountain Standard Time", "Central Standard Time",
   "Canada Central Standard Time", "Mexico Standard Time",
   "Central America Standard Time", "Eastern Standard Time",
   "US Eastern Standard Time", "SA Pacific Standard Time",
   "Atlantic Standard Time", "SA Western Standard Time",
   "Pacific SA Standard Time", "Newfoundland and Labrador Standard Time",
   "E South America Standard Time", "SA Eastern Standard Time",
   "Greenland Standard Time", "Mid-Atlantic Standard Time",
   "Azores Standard Time", "Cape Verde Standard Time", "GMT Standard Time",
   "Greenwich Standard Time", "Central Europe Standard Time",
   "Central European Standard Time", "Romance Standard Time",
   "W Europe Standard Time", "W Central Africa Standard Time",
   "E Europe Standard Time", "Egypt Standard Time", "FLE Standard Time",
   "GTB Standard Time", "Israel Standard Time", "South Africa Standard Time",
   "Russian Standard Time", "Arab Standard Time", "E Africa Standard Time",
   "Arabic Standard Time", "Iran Standard Time", "Arabian Standard Time",
   "Caucasus Standard Time",
   "Transitional Islamic State of Afghanistan Standard Time",
   "Ekaterinburg Standard Time", "West Asia Standard Time",
   "India Standard Time", "Nepal Standard Time", "Central Asia Standard Time",
   "Sri Lanka Standard Time", "N Central Asia Standard Time",
   "Myanmar Standard Time", "SE Asia Standard Time",
   "North Asia Standard Time", "China Standard Time",
   "Singapore Standard Time", "Taipei Standard Time",
   "W Australia Standard Time", "North Asia East Standard Time",
   "Korea Standard Time", "Tokyo Standard Time", "Yakutsk Standard Time",
   "AUS Central Standard Time", "Cen Australia Standard Time",
   "AUS Eastern Standard Time", "E Australia Standard Time",
   "Tasmania Standard Time", "Vladivostok Standard Time",
   "West Pacific Standard Time", "Central Pacific Standard Time",
   "Fiji Islands Standard Time", "New Zealand Standard Time",
   "Tonga Standard Time", "Azerbaijan Standard Time",
   "Middle East Standard Time", "Jordan Standard Time",
   "Central Standard Time (Mexico)", "Mountain Standard Time (Mexico)",
   "Pacific Standard Time (Mexico)", "Namibia Standard Time",
   "Georgian Standard Time", "Central Brazilian Standard Time",
   "Montevideo Standard Time", "Armenian Standard Time",
   "Venezuela Standard Time", "Argentina Standard Time",
   "Morocco Standard Time", "Pakistan Standard Time",
   "Mauritius Standard Time", "UTC", "Paraguay Standard Time",
   "Kamchatka Standard Time"]

/-- The weekday names accepted for `on_these_days` (lines 99-108). -/
def weekDayNames : List String :=
  ["Monday", "Tuesday", "Wednesday", "Thursday", "Friday", "Saturday", "Sunday"]

/-- `expandLogicAppTriggerRecurrenceSchedule` (lines 333-372): an empty input
list or a `nil` first element yields an empty object; otherwise each set
attribute is read off the first element and emitted as a list under `hours` /
`minutes` / `weekDays`, but only when non-empty (`if len(...) > 0`). -/
def expandLogicAppTriggerRecurrenceSchedule
    (input : List (Option ScheduleAttrs)) : ScheduleDoc :=
  match input with
  | [] => ⟨none, none, none⟩
  | none :: _ => ⟨none, none, none⟩
  | some attrs :: _ =>
    { hours := if attrs.at_these_hours.length > 0
        then some attrs.at_these_hours else none
      minutes := if attrs.at_these_minutes.length > 0
        then some attrs.at_these_minutes else none
      weekDays := if attrs.on_these_days.length > 0
        then some attrs.on_these_days else none }

/-- The schedule attributes as the read handler leaves them in state,
sub-fields that the flattener did not write being absent (`none`). -/
structure FlatScheduleAttrs where
  at_these_hours : Option (List Int)
  at_these_minutes : Option (List Int)
  on_these_days : Option (List String)
  deriving DecidableEq, Repr

/-- `flattenLogicAppTriggerRecurrenceSchedule` (lines 374-388): always returns
the one-element list `[]interface{}{attrs}` where `attrs` holds
`at_these_hours` / `at_these_minutes` / `on_these_days` for exactly those of
`hours` / `minutes` / `weekDays` that are non-`nil` in the input. -/
def flattenLogicAppTriggerRecurrenceSchedule
    (input : ScheduleDoc) : List FlatScheduleAttrs :=
  [{ at_these_hours := input.hours
     at_these_minutes := input.minutes
     on_these_days := input.weekDays }]

/-- Terraform's `d.Set` materialises a set attribute missing from the written
map as the empty set; this converts the flattener's output element to the
stored `ScheduleAttrs`. -/
def fillScheduleAttrs (a : FlatScheduleAttrs) : ScheduleAttrs :=
  { at_these_hours := a.at_these_hours.getD []
    at_these_minutes := a.at_these_minutes.getD []
    on_these_days := a.on_these_days.getD [] }

/-- The document-building step of `resourceLogicAppTriggerRecurrenceCreateUpdate`
(lines 124-144): the body always carries `type = "Recurrence"` and a
`recurrence` object with `frequency` and `interval` (read with `d.Get`);
`startTime` is added only when `start_time` is set (`d.GetOk`), `timeZone`
only inside that branch and only when `time_zone` is set, and `schedule` only
when the `schedule` list is non-empty. -/
def expandTrigger (c : TriggerConfig) : TriggerDoc :=
  { typ := some "Recurrence"
    recurrence := some (TrigVal.obj
      { frequency := some c.frequency
        interval := some c.interval
        startTime := if c.start_time = "" then none else some c.start_time
        timeZone := if c.start_time = "" then none
          else if c.time_zone = "" then none else some c.time_zone
        schedule := if c.schedule.length > 0
          then some (expandLogicAppTriggerRecurrenceSchedule c.schedule)
          else none }) }

/-- The field-population step of `resourceLogicAppTriggerRecurrenceRead`
(lines 191-209) applied to a prior configuration: each of `frequency`,
`interval`, `start_time`, `time_zone` is overwritten exactly when the
corresponding document key is non-`nil` (otherwise the prior value stays), and
`schedule` is overwritten with the flattener's output when the document has a
`schedule` key. -/
def applyRecurrence (c : TriggerConfig) (r : RecurrenceDoc) : TriggerConfig :=
  { frequency := r.frequency.getD c.frequency
    interval := r.interval.getD c.interval
    start_time := r.startTime.getD c.start_time
    time_zone := r.timeZone.getD c.time_zone
    schedule := match r.schedule with
      | none => c.schedule
      | some s => (flattenLogicAppTriggerRecurrenceSchedule s).map
          (fun a => some (fillScheduleAttrs a)) }

/-- The all-unset configuration (every field at its Terraform zero value). -/
def blankConfig : TriggerConfig :=
  { frequency := "", interval := 0, start_time := "", time_zone := "",
    schedule := [] }

/-- Flattening a `recurrence` object as a pure mapping: the configuration
fields `resourceLogicAppTriggerRecurrenceRead` produces from it starting from
an empty state. -/
def flattenRecurrence (r : RecurrenceDoc) : TriggerConfig :=
  applyRecurrence blankConfig r

/-- Extracts the `recurrence` object of a trigger document when it is present
and is a JSON object, as the read handler's `nil` check plus type assertion
does (lines 181-189). -/
def recurrenceObj (t : TriggerDoc) : Option RecurrenceDoc :=
  match t.recurrence with
  | some (TrigVal.obj r) => some r
  | _ => none

/-- Flattening a whole trigger document: defined when `recurrence` is present
and an object. -/
def flattenTrigger (t : TriggerDoc) : Option TriggerConfig :=
  (recurrenceObj t).map flattenRecurrence

/-- The full resource state the read handler manipulates: the tracked
identity (`d.Id()` / `d.SetId`), the `name` and `logic_app_id` attributes, and
the mapped configuration fields. -/
structure ResourceState extends TriggerConfig where
  id : String
  name : String
  logic_app_id : String
  deriving DecidableEq, Repr

/-- The workflow object returned alongside the trigger by
`retrieveLogicAppTrigger`; the read handler only uses its `ID`. -/
structure AppInfo where
  ID : String
  deriving DecidableEq, Repr

/-- The outcome of the external collaborator `retrieveLogicAppTrigger`:
an error, no trigger (`t == nil`), or a trigger document plus its workflow. -/
inductive FetchResult where
  | fetchErr : String → FetchResult
  | notFound : FetchResult
  | found : TriggerDoc → AppInfo → FetchResult
  deriving DecidableEq, Repr

/-- What a read handler invocation leaves behind: the (possibly mutated)
resource state and the returned error, `none` meaning success. -/
structure ReadResult where
  state : ResourceState
  err : Option String
  deriving DecidableEq, Repr

/-- The message built by the read handler when the `recurrence` key is `nil`
(line 183): Error `recurrence` was nil for HTTP Trigger %q (Logic App %q /
Resource Group %q), with `%q` rendered as double-quoting. -/
def recurrenceNilError (name logicAppName resourceGroup : String) : String :=
  "Error `recurrence` was nil for HTTP Trigger \"" ++
    (name ++ ("\" (Logic App \"" ++
      (logicAppName ++ ("\" / Resource Group \"" ++ (resourceGroup ++ "\")")))))

/-- The message built by the read handler when the `recurrence` value is not
an object (line 188): Error parsing `recurrence` for HTTP Trigger %q (Logic
App %q / Resource Group %q), with `%q` rendered as double-quoting. -/
def recurrenceParseError (name logicAppName resourceGroup : String) : String :=
  "Error parsing `recurrence` for HTTP Trigger \"" ++
    (name ++ ("\" (Logic App \"" ++
      (logicAppName ++ ("\" / Resource Group \"" ++ (resourceGroup ++ "\")")))))

/-- `resourceLogicAppTriggerRecurrenceRead` (lines 155-212) after the
identifier has been parsed into `(resourceGroup, logicAppName, name)` and
`retrieveLogicAppTrigger` has produced `fetched`.  A fetch error is returned
as-is; a missing trigger clears the id and succeeds; otherwise `name` and
`logic_app_id` are written first, then the `recurrence` value is checked for
`nil` and for being an object (each failure returning a descriptive error),
and finally the configuration fields are populated from it. -/
def resourceLogicAppTriggerRecurrenceRead (d : ResourceState)
    (resourceGroup logicAppName name : String)
    (fetched : FetchResult) : ReadResult :=
  match fetched with
  | FetchResult.fetchErr e => { state := d, err := some e }
  | FetchResult.notFound => { state := { d with id := "" }, err := none }
  | FetchResult.found t app =>
    let d1 : ResourceState := { d with name := name, logic_app_id := app.ID }
    match t.recurrence with
    | none =>
      { state := d1
        err := some (recurrenceNilError name logicAppName resourceGroup) }
    | some (TrigVal.prim _) =>
      { state := d1
        err := some (recurrenceParseError name logicAppName resourceGroup) }
    | some (TrigVal.obj r) =>
      { state := { d1 with toTriggerConfig := applyRecurrence d1.toTriggerConfig r }
        err := none }

/-- `s` contains `sub` as a contiguous substring. -/
def containsStr (s sub : String) : Prop :=
  ∃ a b, s = a ++ (sub ++ b)

theorem strAppendAssoc (a b c : String) : (a ++ b) ++ c = a ++ (b ++ c) := by
  rcases a with ⟨la⟩
  rcases b with ⟨lb⟩
  rcases c with ⟨lc⟩
  show String.mk ((la ++ lb) ++ lc) = String.mk (la ++ (lb ++ lc))
  rw [List.append_assoc]

example : expandTrigger { blankConfig with frequency := "Day", interval := 1 } =
    { typ := some "Recurrence"
      recurrence := some (TrigVal.obj
        { frequency := some "Day", interval := some 1, startTime := none,
          timeZone := none, schedule := none }) } := by decide

/-- A `schedule` block that passes schema validation: elements in range
(`IntBetween(0, 23)`, `IntBetween(0, 59)`, the weekday enum) and the
`AtLeastOneOf` constraint tying the three attributes together. -/
def ValidScheduleAttrs (a : ScheduleAttrs) : Prop :=
  (∀ h ∈ a.at_these_hours, 0 ≤ h ∧ h ≤ 23) ∧
  (∀ m ∈ a.at_these_minutes, 0 ≤ m ∧ m ≤ 59) ∧
  (∀ d ∈ a.on_these_days, d ∈ weekDayNames) ∧
  (a.at_these_hours ≠ [] ∨ a.at_these_minutes ≠ [] ∨ a.on_these_days ≠ [])

/-- A configuration that passes the declared schema validation: `frequency`
in the enum, `time_zone` (when set) in the whitelist, and `schedule` either
absent or a single valid block (`MaxItems: 1`).  The schema puts no further
constraint on `interval`, and `start_time` syntax (RFC3339) plays no role in
the mapping. -/
def ValidTriggerConfig (c : TriggerConfig) : Prop :=
  stringInSlice frequencyValues false c.frequency = true ∧
  (c.time_zone ≠ "" → stringInSlice recurrenceTimeZones false c.time_zone = true) ∧
  (c.schedule = [] ∨ ∃ a, c.schedule = [some a] ∧ ValidScheduleAttrs a)

/-- A remote `schedule` object is well formed when no present key is bound to
an empty list. -/
def WellFormedSchedule (s : ScheduleDoc) : Prop :=
  s.hours ≠ some [] ∧ s.minutes ≠ some [] ∧ s.weekDays ≠ some []

/-- A remote `recurrence` object is well formed when it carries `frequency`
and `interval`, any present `startTime` / `timeZone` is a non-empty string,
`timeZone` appears only together with `startTime`, and any present `schedule`
object is well formed. -/
def WellFormedRecurrence (r : RecurrenceDoc) : Prop :=
  r.frequency.isSome = true ∧ r.interval.isSome = true ∧
  r.startTime ≠ some "" ∧
  (r.timeZone.isSome = true → r.startTime.isSome = true) ∧
  r.timeZone ≠ some "" ∧
  (match r.schedule with
   | none => True
   | some s => WellFormedSchedule s)

/-- A remote trigger document is well formed when its `type` is
`"Recurrence"` and its `recurrence` key holds a well-formed object. -/
def WellFormedDoc (t : TriggerDoc) : Prop :=
  t.typ = some "Recurrence" ∧
  ∃ r, t.recurrence = some (TrigVal.obj r) ∧ WellFormedRecurrence r

theorem getD_if_length (l : List Int) :
    (if l.length > 0 then some l else none).getD [] = l := by
  cases l <;> simp

theorem getD_if_length_str (l : List String) :
    (if l.length > 0 then some l else none).getD [] = l := by
  cases l <;> simp

/-- Claim C1: when `time_zone` is set but `start_time` is unset, the document
built by the create/update expand step carries no `timeZone` key under
`recurrence`; the time zone is silently dropped, not reported as an error. -/
theorem expand_drops_time_zone_without_start_time (c : TriggerConfig)
    (_htz : c.time_zone ≠ "") (hst : c.start_time = "") :
    (recurrenceObj (expandTrigger c)).map RecurrenceDoc.timeZone = some none := by
  simp [expandTrigger, recurrenceObj, hst]

/-- A concrete configuration with `time_zone` set and `start_time` unset. -/
def tzOnlyConfig : TriggerConfig :=
  { frequency := "Day", interval := 1, start_time := "", time_zone := "UTC",
    schedule := [] }

theorem expand_drops_time_zone_without_start_time_witness :
    tzOnlyConfig.time_zone ≠ "" ∧ tzOnlyConfig.start_time = "" ∧
      (recurrenceObj (expandTrigger tzOnlyConfig)).map RecurrenceDoc.timeZone =
        some none :=
  ⟨by decide, rfl,
    expand_drops_time_zone_without_start_time tzOnlyConfig (by decide) rfl⟩

/-- A schema-valid configuration (frequency `"Day"`, interval `1`, time zone
`"UTC"`, no start time, no schedule) on which the flatten-after-expand round
trip loses the time zone. -/
def tzDroppedConfig : TriggerConfig :=
  { frequency := "Day", interval := 1, start_time := "", time_zone := "UTC",
    schedule := [] }

/-- Claim C2 counterexample: `tzDroppedConfig` is a valid configuration
(frequency in the enum, time zone in the whitelist, no schedule), yet
flattening its expansion does not reproduce it — the expansion carries no
`timeZone` because `start_time` is unset, so the flattened `time_zone` is
empty rather than `"UTC"`. -/
theorem flatten_expand_roundtrip_counterexample :
    ValidTriggerConfig tzDroppedConfig ∧
      flattenTrigger (expandTrigger tzDroppedConfig) ≠ some tzDroppedConfig :=
  ⟨⟨by decide, fun _ => by decide, Or.inl rfl⟩, by decide⟩

/-- Claim C2 (amended): for every valid TriggerConfig whose `time_zone` is set
only when `start_time` is set, flattening the document produced by expanding
the configuration yields exactly its field values. -/
theorem flatten_expand_roundtrip (c : TriggerConfig)
    (hv : ValidTriggerConfig c)
    (htz : c.time_zone ≠ "" → c.start_time ≠ "") :
    flattenTrigger (expandTrigger c) = some c := by
  obtain ⟨-, -, hsched⟩ := hv
  obtain ⟨f, i, st, tz, sch⟩ := c
  simp only [flattenTrigger, expandTrigger, recurrenceObj, flattenRecurrence,
    applyRecurrence, blankConfig, Option.map_some']
  congr 1
  rcases hsched with hsch | ⟨a, hsch, -⟩ <;> subst hsch
  · by_cases hst : st = "" <;>
      by_cases htz' : tz = "" <;>
      simp_all [expandLogicAppTriggerRecurrenceSchedule,
        flattenLogicAppTriggerRecurrenceSchedule, fillScheduleAttrs]
  · by_cases hst : st = "" <;>
      by_cases htz' : tz = "" <;>
      simp_all [expandLogicAppTriggerRecurrenceSchedule,
        flattenLogicAppTriggerRecurrenceSchedule, fillScheduleAttrs,
        getD_if_length, getD_if_length_str]

/-- A valid configuration with every optional part populated, exercising the
amended round trip. -/
def fullConfig : TriggerConfig :=
  { frequency := "Week", interval := 2, start_time := "2020-01-01T00:00:00Z",
    time_zone := "UTC",
    schedule := [some { at_these_hours := [10], at_these_minutes := [0, 30],
                        on_these_days := ["Monday", "Friday"] }] }

theorem flatten_expand_roundtrip_witness :
    ValidTriggerConfig fullConfig ∧
      (fullConfig.time_zone ≠ "" → fullConfig.start_time ≠ "") ∧
      flattenTrigger (expandTrigger fullConfig) = some fullConfig := by
  have hv : ValidTriggerConfig fullConfig :=
    ⟨by decide, fun _ => by decide,
      Or.inr ⟨_, rfl, by decide, by decide, by decide, by decide⟩⟩
  exact ⟨hv, fun _ => by decide,
    flatten_expand_roundtrip fullConfig hv (fun _ => by decide)⟩

theorem getD_if_of_ne_nil (o : Option (List Int)) (h : o ≠ some []) :
    (if (o.getD []).length > 0 then some (o.getD []) else none) = o := by
  cases o with
  | none => simp
  | some l => cases l with
    | nil => exact absurd rfl h
    | cons x xs => simp

theorem getD_if_of_ne_nil_str (o : Option (List String)) (h : o ≠ some []) :
    (if (o.getD []).length > 0 then some (o.getD []) else none) = o := by
  cases o with
  | none => simp
  | some l => cases l with
    | nil => exact absurd rfl h
    | cons x xs => simp

/-- Claim C3: expanding the configuration obtained by flattening a well-formed
remote trigger document reproduces the document. -/
theorem expand_flatten_roundtrip (t : TriggerDoc) (h : WellFormedDoc t) :
    (flattenTrigger t).map expandTrigger = some t := by
  obtain ⟨htyp, r, hrec, hf, hi, hst, htzst, htz, hsched⟩ := h
  obtain ⟨typ, recurrence⟩ := t
  simp only at htyp hrec
  subst htyp hrec
  simp only [flattenTrigger, recurrenceObj, Option.map_some', Option.some.injEq]
  obtain ⟨f, i, st, tz, sch⟩ := r
  obtain ⟨f, rfl⟩ := Option.isSome_iff_exists.mp hf
  obtain ⟨i, rfl⟩ := Option.isSome_iff_exists.mp hi
  simp only [flattenRecurrence, applyRecurrence, blankConfig, expandTrigger,
    TriggerDoc.mk.injEq, true_and, Option.some.injEq, TrigVal.obj.injEq,
    Option.getD_some, RecurrenceDoc.mk.injEq, eq_self_iff_true]
  refine ⟨?_, ?_, ?_⟩
  · cases st with
    | none => simp
    | some s =>
      have hs : s ≠ "" := fun hs => hst (by simp [hs])
      simp [hs]
  · cases tz with
    | none => cases st with
      | none => simp
      | some s => by_cases hs : s = "" <;> simp [hs]
    | some z =>
      have hzst : st.isSome = true := htzst (by simp)
      obtain ⟨s, rfl⟩ := Option.isSome_iff_exists.mp hzst
      have hs : s ≠ "" := fun hs => hst (by simp [hs])
      have hz : z ≠ "" := fun hz => htz (by simp [hz])
      simp [hs, hz]
  · cases sch with
    | none => simp
    | some s =>
      obtain ⟨hh, hm, hw⟩ := hsched
      simp only [flattenLogicAppTriggerRecurrenceSchedule, List.map_cons,
        List.map_nil, List.length_cons, List.length_nil, Nat.zero_lt_one,
        if_pos, fillScheduleAttrs, expandLogicAppTriggerRecurrenceSchedule,
        Option.some.injEq]
      obtain ⟨sh, sm, sw⟩ := s
      simp only at hh hm hw
      simp [getD_if_of_ne_nil _ hh, getD_if_of_ne_nil _ hm,
        getD_if_of_ne_nil_str _ hw]

/-- A well-formed remote document with all optional parts present. -/
def fullDoc : TriggerDoc :=
  { typ := some "Recurrence"
    recurrence := some (TrigVal.obj
      { frequency := some "Week", interval := some 2,
        startTime := some "2020-01-01T00:00:00Z", timeZone := some "UTC",
        schedule := some { hours := some [10], minutes := none,
                           weekDays := some ["Monday", "Friday"] } }) }

theorem expand_flatten_roundtrip_witness :
    WellFormedDoc fullDoc ∧ (flattenTrigger fullDoc).map expandTrigger = some fullDoc := by
  have h : WellFormedDoc fullDoc :=
    ⟨rfl, _, rfl, by decide, by decide, by decide, by decide, by decide,
      ⟨by decide, by decide, by decide⟩⟩
  exact ⟨h, expand_flatten_roundtrip fullDoc h⟩

/-- Claim C4: when the fetch collaborator reports the trigger does not exist,
the read handler clears the persisted identity (id becomes the empty string)
and succeeds, leaving every other field of the state untouched. -/
theorem read_not_found_clears_id (d : ResourceState)
    (resourceGroup logicAppName name : String) :
    resourceLogicAppTriggerRecurrenceRead d resourceGroup logicAppName name
        FetchResult.notFound =
      { state := { d with id := "" }, err := none } :=
  rfl

theorem containsStr_append_left (p s x : String) :
    containsStr s x → containsStr (p ++ s) x := by
  rintro ⟨a, b, rfl⟩
  exact ⟨p ++ a, b, (strAppendAssoc p a (x ++ b)).symm⟩

theorem containsStr_nil_error (name logicAppName resourceGroup : String) :
    containsStr (recurrenceNilError name logicAppName resourceGroup) name ∧
      containsStr (recurrenceNilError name logicAppName resourceGroup) logicAppName ∧
      containsStr (recurrenceNilError name logicAppName resourceGroup) resourceGroup := by
  refine ⟨⟨_, _, rfl⟩, ?_, ?_⟩
  · exact containsStr_append_left _ _ _
      (containsStr_append_left _ _ _ ⟨_, _, rfl⟩)
  · exact containsStr_append_left _ _ _ (containsStr_append_left _ _ _
      (containsStr_append_left _ _ _ (containsStr_append_left _ _ _ ⟨_, _, rfl⟩)))

theorem containsStr_parse_error (name logicAppName resourceGroup : String) :
    containsStr (recurrenceParseError name logicAppName resourceGroup) name ∧
      containsStr (recurrenceParseError name logicAppName resourceGroup) logicAppName ∧
      containsStr (recurrenceParseError name logicAppName resourceGroup) resourceGroup := by
  refine ⟨⟨_, _, rfl⟩, ?_, ?_⟩
  · exact containsStr_append_left _ _ _
      (containsStr_append_left _ _ _ ⟨_, _, rfl⟩)
  · exact containsStr_append_left _ _ _ (containsStr_append_left _ _ _
      (containsStr_append_left _ _ _ (containsStr_append_left _ _ _ ⟨_, _, rfl⟩)))

/-- Claim C5: when the fetched document's `recurrence` key is absent or its
value is not an object, the read handler fails with an error message that
names the trigger, the Logic App workflow, and the resource group. -/
theorem read_malformed_recurrence_fails_named (d : ResourceState)
    (resourceGroup logicAppName name : String) (t : TriggerDoc) (app : AppInfo)
    (h : t.recurrence = none ∨ ∃ s, t.recurrence = some (TrigVal.prim s)) :
    ∃ msg,
      (resourceLogicAppTriggerRecurrenceRead d resourceGroup logicAppName name
          (FetchResult.found t app)).err = some msg ∧
        containsStr msg name ∧ containsStr msg logicAppName ∧
        containsStr msg resourceGroup := by
  rcases h with h | ⟨s, h⟩
  · exact ⟨recurrenceNilError name logicAppName resourceGroup,
      by simp [resourceLogicAppTriggerRecurrenceRead, h],
      containsStr_nil_error name logicAppName resourceGroup⟩
  · exact ⟨recurrenceParseError name logicAppName resourceGroup,
      by simp [resourceLogicAppTriggerRecurrenceRead, h],
      containsStr_parse_error name logicAppName resourceGroup⟩

/-- The resource state with every field at its zero value. -/
def blankState : ResourceState :=
  { toTriggerConfig := blankConfig, id := "", name := "", logic_app_id := "" }

/-- A fetched document whose `recurrence` key is absent. -/
def noRecurrenceDoc : TriggerDoc :=
  { typ := some "Recurrence", recurrence := none }

theorem read_malformed_recurrence_fails_named_witness :
    (noRecurrenceDoc.recurrence = none ∨
        ∃ s, noRecurrenceDoc.recurrence = some (TrigVal.prim s)) ∧
      ∃ msg,
        (resourceLogicAppTriggerRecurrenceRead blankState "group1" "workflow1"
            "trigger1" (FetchResult.found noRecurrenceDoc ⟨"appid1"⟩)).err =
          some msg ∧
          containsStr msg "trigger1" ∧ containsStr msg "workflow1" ∧
          containsStr msg "group1" :=
  ⟨Or.inl rfl,
    read_malformed_recurrence_fails_named blankState "group1" "workflow1"
      "trigger1" noRecurrenceDoc ⟨"appid1"⟩ (Or.inl rfl)⟩

/-- Claim C6: the `frequency` validator accepts a string exactly when it is
one of the six enum values (case-sensitively); the duplicated `"Hour"` entry
in the source slice does not enlarge the accepted set. -/
theorem frequency_validation_iff (s : String) :
    stringInSlice frequencyValues false s = true ↔
      (s = "Month" ∨ s = "Week" ∨ s = "Day" ∨ s = "Hour" ∨ s = "Minute" ∨
        s = "Second") := by
  simp [stringInSlice, frequencyValues]
  constructor
  · rintro (rfl | rfl | rfl | rfl | rfl | rfl | rfl) <;> tauto
  · rintro (rfl | rfl | rfl | rfl | rfl | rfl) <;> tauto

theorem if_length_eq_if_nil (l : List Int) :
    (if l.length > 0 then some l else none) =
      (if l = [] then none else some l) := by
  cases l <;> simp

theorem if_length_eq_if_nil_str (l : List String) :
    (if l.length > 0 then some l else none) =
      (if l = [] then none else some l) := by
  cases l <;> simp

/-- Claim C7: the expanded document always carries `type = "Recurrence"` and a
`recurrence` object with `frequency` and `interval`; when a schedule block is
present, each populated set field becomes a list under `hours` / `minutes` /
`weekDays`, and a field whose set is empty contributes no key. -/
theorem expand_structure (c : TriggerConfig) :
    (expandTrigger c).typ = some "Recurrence" ∧
      ∃ r, (expandTrigger c).recurrence = some (TrigVal.obj r) ∧
        r.frequency = some c.frequency ∧
        r.interval = some c.interval ∧
        ∀ a, c.schedule = [some a] →
          r.schedule = some
            { hours := if a.at_these_hours = [] then none
                else some a.at_these_hours
              minutes := if a.at_these_minutes = [] then none
                else some a.at_these_minutes
              weekDays := if a.on_these_days = [] then none
                else some a.on_these_days } := by
  refine ⟨rfl, _, rfl, rfl, rfl, ?_⟩
  intro a ha
  simp [expandTrigger, ha, expandLogicAppTriggerRecurrenceSchedule,
    if_length_eq_if_nil, if_length_eq_if_nil_str]

/-- A configuration whose schedule block populates only `on_these_days`. -/
def daysOnlyConfig : TriggerConfig :=
  { frequency := "Week", interval := 2, start_time := "", time_zone := "",
    schedule := [some { at_these_hours := [], at_these_minutes := [],
                        on_these_days := ["Monday", "Friday"] }] }

theorem expand_structure_witness :
    (expandTrigger daysOnlyConfig).typ = some "Recurrence" ∧
      ∃ r, (expandTrigger daysOnlyConfig).recurrence = some (TrigVal.obj r) ∧
        r.frequency = some "Week" ∧
        r.interval = some 2 ∧
        r.schedule = some { hours := none, minutes := none,
                            weekDays := some ["Monday", "Friday"] } := by
  obtain ⟨htyp, r, hrec, hf, hi, hsched⟩ := expand_structure daysOnlyConfig
  refine ⟨htyp, r, hrec, hf, hi, ?_⟩
  rw [hsched _ rfl]
  decide

/-- Claim C8: the schema enforces no bound on `interval`: every integer passes
validation and is forwarded unchanged into `recurrence.interval` (so in
particular zero and negative values). -/
theorem interval_unvalidated_and_forwarded (c : TriggerConfig) :
    intervalValidateOk c.interval = true ∧
      (recurrenceObj (expandTrigger c)).map RecurrenceDoc.interval =
        some (some c.interval) :=
  ⟨rfl, rfl⟩

/-- Claim C9: the schedule flattener always returns a one-element list; in
particular a remote schedule object with none of the keys `hours`, `minutes`,
`weekDays` flattens to a one-element list holding the empty attribute map,
not to an empty list. -/
theorem flatten_schedule_singleton (s : ScheduleDoc) :
    (flattenLogicAppTriggerRecurrenceSchedule s).length = 1 ∧
      flattenLogicAppTriggerRecurrenceSchedule
          { hours := none, minutes := none, weekDays := none } =
        [{ at_these_hours := none, at_these_minutes := none,
           on_these_days := none }] :=
  ⟨rfl, rfl⟩

/-- Claim C10: on the malformed-`recurrence` error path the read handler has
already written `name` and `logic_app_id` into the state before returning the
error, so the state does not come back unchanged. -/
theorem read_malformed_sets_name_and_app (d : ResourceState)
    (resourceGroup logicAppName name : String) (t : TriggerDoc) (app : AppInfo)
    (h : t.recurrence = none ∨ ∃ s, t.recurrence = some (TrigVal.prim s)) :
    ((resourceLogicAppTriggerRecurrenceRead d resourceGroup logicAppName name
        (FetchResult.found t app)).state.name = name ∧
      (resourceLogicAppTriggerRecurrenceRead d resourceGroup logicAppName name
        (FetchResult.found t app)).state.logic_app_id = app.ID ∧
      (resourceLogicAppTriggerRecurrenceRead d resourceGroup logicAppName name
        (FetchResult.found t app)).err.isSome = true) := by
  rcases h with h | ⟨s, h⟩ <;>
    simp [resourceLogicAppTriggerRecurrenceRead, h]

/-- A fetched document whose `recurrence` value is a string, not an object. -/
def primRecurrenceDoc : TriggerDoc :=
  { typ := some "Recurrence", recurrence := some (TrigVal.prim "oops") }

theorem read_malformed_sets_name_and_app_witness :
    (primRecurrenceDoc.recurrence = none ∨
        ∃ s, primRecurrenceDoc.recurrence = some (TrigVal.prim s)) ∧
      ((resourceLogicAppTriggerRecurrenceRead blankState "group2" "workflow2"
          "trigger2" (FetchResult.found primRecurrenceDoc ⟨"appid2"⟩)).state.name =
          "trigger2" ∧
        (resourceLogicAppTriggerRecurrenceRead blankState "group2" "workflow2"
          "trigger2"
          (FetchResult.found primRecurrenceDoc ⟨"appid2"⟩)).state.logic_app_id =
          "appid2" ∧
        (resourceLogicAppTriggerRecurrenceRead blankState "group2" "workflow2"
          "trigger2"
          (FetchResult.found primRecurrenceDoc ⟨"appid2"⟩)).err.isSome = true) :=
  ⟨Or.inr ⟨"oops", rfl⟩,
    read_malformed_sets_name_and_app blankState "group2" "workflow2" "trigger2"
      primRecurrenceDoc ⟨"appid2"⟩ (Or.inr ⟨"oops", rfl⟩)⟩
